import Mathlib

/-!
Shallow embedding of the PR-2 end-to-end harness and its companion
observability gate:

* `ci/scripts/observability_gate.py` — the Trace Chain Verifier
  (`_check_trace_chain` and its helper constants);
* `ci/scripts/run_pr2_e2e_ws.py` — the Session Driver (`_ws_flow`),
  the bounded wait (`_wait_for`), the aggregate probe (`_get_aggregate`)
  and the orchestrating `main`.

Modelling conventions:

* Python strings are Lean `String`s; Python's `in` (substring), `strip`,
  `startswith` and `"sep".join` are re-implemented over `List Char`
  because the built-in `String` versions do not reduce in the kernel.
* JSON values parsed by `json.loads` are the inductive `JVal`; a parse
  failure is the `Except.error` side of the parsed input.
* Wall-clock time is `Nat` milliseconds.  `_wait_for(pred, 1.0)` is
  modelled denotationally: the wait succeeds iff the predicate holds
  over the messages that have arrived by `start + 1000`, and it returns
  at the first arrival instant that satisfies the predicate (or at the
  deadline).  This idealises the 10 ms polling loop and its final
  post-deadline predicate probe.
* A Python exception that escapes the modelled code is `Except.error`
  with the exception text.
-/

/-- Does `pat` occur as a leading segment of `s` (character lists)? -/
def leadsWith : List Char → List Char → Bool
  | [], _ => true
  | _ :: _, [] => false
  | a :: as, b :: bs => a == b && leadsWith as bs

/-- Does `pat` occur as a contiguous segment of `s` (character lists)? -/
def lcInfix (pat s : List Char) : Bool :=
  leadsWith pat s ||
    match s with
    | [] => false
    | _ :: t => lcInfix pat t

/-- Python `pat in s` on strings. -/
def strContains (s pat : String) : Bool := lcInfix pat.data s.data

/-- Python `s.startswith(pat)`. -/
def strStartsWith (s pat : String) : Bool := leadsWith pat.data s.data

/-- The ASCII whitespace characters removed by Python `str.strip()`. -/
def isPySpace (c : Char) : Bool :=
  c == ' ' || c == '\t' || c == '\n' || c == '\r' || c == '\x0b' || c == '\x0c'

/-- Python `s.strip()` (ASCII whitespace). -/
def pyStrip (s : String) : String :=
  ⟨((s.data.dropWhile isPySpace).reverse.dropWhile isPySpace).reverse⟩

/-- Python `"\n".join(lines) + "\n"`. -/
def joinLines (lines : List String) : String :=
  String.intercalate "\n" lines ++ "\n"

/-- Python `list(dict.fromkeys(l))`: drop duplicates, keep first occurrences. -/
def dedupKeys (l : List String) : List String :=
  l.foldl (fun acc x => if acc.contains x then acc else acc ++ [x]) []

/-- A JSON value as produced by `json.loads`. -/
inductive JVal where
  | null
  | bool (b : Bool)
  | num (n : Int)
  | str (s : String)
  | arr (xs : List JVal)
  | obj (kvs : List (String × JVal))
deriving Repr

/-- Python `d.get(k)` on an object's key/value list (first binding wins,
mirroring the uniqueness of `dict` keys). -/
def lookupKey (kvs : List (String × JVal)) (k : String) : Option JVal :=
  (kvs.find? (fun p => p.1 == k)).map (fun p => p.2)

/-- The dataclass `CheckResult` of `observability_gate.py`. -/
structure CheckResult where
  name : String
  ok : Bool
  conclusion : String
  evidence : String
  risk : String
deriving Repr, DecidableEq

/-- Constant `REQUIRED_SPAN_NAME_SUBSTRINGS` of `observability_gate.py`. -/
def REQUIRED_SPAN_NAME_SUBSTRINGS : List String :=
  ["ws.message",
   "ws.event.class_enter",
   "pg.prisma.classEvent.create",
   "redis.aggregate.incEnter",
   "ws.push.class_session_aggregate"]

/-- Helper `_attrs` of `_check_trace_chain`: the `attributes` object of a
span, or the empty object when the span or its `attributes` is not an
object. -/
def pyAttrs (s : JVal) : List (String × JVal) :=
  match s with
  | .obj kvs =>
    match lookupKey kvs "attributes" with
    | some (.obj a) => a
    | _ => []
  | _ => []

/-- The grouping condition of the `span_by_corr` loop: a span is grouped
under `c` iff it is an object and `attributes.correlation_id` is the
non-empty string `c` (`isinstance(corr, str) and corr`). -/
def goodCorr (s : JVal) : Option String :=
  match s with
  | .obj _ =>
    match lookupKey (pyAttrs s) "correlation_id" with
    | some (.str c) => if c == "" then none else some c
    | _ => none
  | _ => none

/-- One step of `span_by_corr.setdefault(corr, []).append(s)`. -/
def insertGroup (m : List (String × List JVal)) (k : String) (v : JVal) :
    List (String × List JVal) :=
  match m with
  | [] => [(k, [v])]
  | (k', vs) :: rest =>
    if k' == k then (k', vs ++ [v]) :: rest else (k', vs) :: insertGroup rest k v

/-- Lookup in the grouping dictionary. -/
def lookupList (m : List (String × List JVal)) (k : String) : Option (List JVal) :=
  (m.find? (fun p => p.1 == k)).map (fun p => p.2)

/-- The `span_by_corr` dictionary built by `_check_trace_chain`. -/
def spanByCorr (spans : List JVal) : List (String × List JVal) :=
  spans.foldl
    (fun m s =>
      match goodCorr s with
      | some c => insertGroup m c s
      | none => m)
    []

/-- Python `span_by_corr.get(cid, [])`. -/
def groupOf (spans : List JVal) (cid : String) : List JVal :=
  (lookupList (spanByCorr spans) cid).getD []

/-- The `name` of a span when it is a string (`isinstance(c.get("name"), str)`). -/
def spanName (s : JVal) : Option String :=
  match s with
  | .obj kvs =>
    match lookupKey kvs "name" with
    | some (.str n) => some n
    | _ => none
  | _ => none

/-- `names = [c.get("name") for c in candidates if isinstance(c.get("name"), str)]`. -/
def namesOf (candidates : List JVal) : List String :=
  candidates.filterMap spanName

/-- `has_class_session`: some span of the group carries a non-empty string
`class_session_id` attribute. -/
def hasClassSession (candidates : List JVal) : Bool :=
  candidates.any fun c =>
    match lookupKey (pyAttrs c) "class_session_id" with
    | some (.str v) => v != ""
    | _ => false

/-- `has_ws`: `any(n and ("ws.message" in n or "ws.event.class_enter" in n))`. -/
def hasWsName (names : List String) : Bool :=
  names.any fun n =>
    n != "" && (strContains n "ws.message" || strContains n "ws.event.class_enter")

/-- `has_pg`. -/
def hasPgName (names : List String) : Bool :=
  names.any fun n => n != "" && strContains n "pg.prisma.classEvent.create"

/-- `has_redis`. -/
def hasRedisName (names : List String) : Bool :=
  names.any fun n => n != "" && strContains n "redis.aggregate.incEnter"

/-- `has_push`. -/
def hasPushName (names : List String) : Bool :=
  names.any fun n => n != "" && strContains n "ws.push.class_session_aggregate"

/-- The per-candidate chain test of `_check_trace_chain` (the five
conjuncts guarding the PASS return). -/
def chainCompleteFor (spans : List JVal) (cid : String) : Bool :=
  let candidates := groupOf spans cid
  let names := namesOf candidates
  hasWsName names && hasPgName names && hasRedisName names && hasPushName names &&
    hasClassSession candidates

/-- The candidate loop `for cid in ids[:10]` (the `[:10]` truncation is
applied by the caller): skip candidates with no spans, return the first
candidate whose group passes the chain test. -/
def findCompleteId (spans : List JVal) : List String → Option String
  | [] => none
  | cid :: rest =>
    let candidates := groupOf spans cid
    if candidates.isEmpty then findCompleteId spans rest
    else if chainCompleteFor spans cid then some cid
    else findCompleteId spans rest

/-- `ids = [x.strip() for x in ...splitlines() if x.strip()]` when the
correlation-ids file exists, else the initial `[]`. -/
def candidateIds (fileExists : Bool) (idLines : List String) : List String :=
  if fileExists then (idLines.map pyStrip).filter (fun x => x != "") else []

/-- The N/A result of `_check_trace_chain` (docs-only phase). -/
def naResult : CheckResult :=
  { name := "Trace chain evidence", ok := true, conclusion := "N/A",
    evidence := "repo scan found no manifests; docs-only phase", risk := "N/A" }

/-- The FAIL result when `trace-export.json` does not exist. -/
def missingExportResult : CheckResult :=
  { name := "Trace chain evidence", ok := false, conclusion := "FAIL",
    evidence := "Missing trace export: `artifacts/observability/trace-export.json`",
    risk := "Without trace-export.json, WS→PG→Redis→push chain can\x27t be audited" }

/-- The FAIL result when `json.loads` raised (`e` is the exception text). -/
def malformedResult (e : String) : CheckResult :=
  { name := "Trace chain evidence", ok := false, conclusion := "FAIL",
    evidence := "trace-export.json is not valid JSON: " ++ e,
    risk := "Invalid trace export blocks auditing" }

/-- The FAIL result when the export has no non-empty `spans` array. -/
def noSpansResult : CheckResult :=
  { name := "Trace chain evidence", ok := false, conclusion := "FAIL",
    evidence := "trace-export.json missing non-empty `spans` array (likely placeholder)",
    risk := "Placeholder traces are not acceptable for PR-2" }

/-- The FAIL result when no candidate correlation id is available. -/
def noIdsResult : CheckResult :=
  { name := "Trace chain evidence", ok := false, conclusion := "FAIL",
    evidence := "correlation-ids.txt is empty; cannot verify trace linkage",
    risk := "Without correlation ids, auditors cannot locate the trace belonging to the E2E run" }

/-- The PASS result for a complete chain under `cid`. -/
def passResult (cid : String) : CheckResult :=
  { name := "Trace chain evidence", ok := true, conclusion := "PASS",
    evidence :=
      "Found correlated trace spans for correlation_id `" ++ cid ++
        "` with required chain spans. trace_file=`artifacts/observability/trace-export.json`",
    risk := "N/A" }

/-- The FAIL result when no candidate had a complete chain. -/
def noChainResult : CheckResult :=
  { name := "Trace chain evidence", ok := false, conclusion := "FAIL",
    evidence :=
      "No correlation_id in correlation-ids.txt had a complete span chain (ws→pg→redis→push) in trace-export.json.",
    risk := "Without a verifiable trace chain, PR-2 observability requirement is not met" }

/-- Embedding of `_check_trace_chain`.  Inputs stand for the effects the
function observes: whether a manifest exists, whether the export file
exists, the outcome of `json.loads` on it, whether the correlation-ids
file exists, and its lines.  `Except.error` models a Python exception
escaping the function (Python calls `data.get` on the parsed value, which
raises `AttributeError` when the top-level JSON value is not an object). -/
def checkTraceChain (hasManifest exportExists : Bool)
    (parsed : Except String JVal)
    (idsFileExists : Bool) (idLines : List String) :
    Except String CheckResult :=
  if !hasManifest then Except.ok naResult
  else if !exportExists then Except.ok missingExportResult
  else
    match parsed with
    | .error e => Except.ok (malformedResult e)
    | .ok data =>
      match data with
      | .obj kvs =>
        match lookupKey kvs "spans" with
        | some (.arr spans) =>
          if spans.isEmpty then Except.ok noSpansResult
          else
            let ids := candidateIds idsFileExists idLines
            if ids.isEmpty then Except.ok noIdsResult
            else
              match findCompleteId spans (ids.take 10) with
              | some cid => Except.ok (passResult cid)
              | none => Except.ok noChainResult
        | _ => Except.ok noSpansResult
      | _ => Except.error "AttributeError"

/-- The spec's reading of a span's correlation id: the value of
`attributes.correlation_id` when the span and its `attributes` are
objects and the value is a string (no non-emptiness filter). -/
def specCorr (s : JVal) : Option String :=
  match s with
  | .obj kvs =>
    match lookupKey kvs "attributes" with
    | some (.obj a) =>
      match lookupKey a "correlation_id" with
      | some (.str c) => some c
      | _ => none
    | _ => none
  | _ => none

/-- The spec's span group for an id: the spans whose
`attributes.correlation_id` equals that id. -/
def specGroup (spans : List JVal) (cid : String) : List JVal :=
  spans.filter (fun s => specCorr s == some cid)

/-- A span's name contains `pat` (spec side: spans without a string name
have no name to match). -/
def specNameHas (s : JVal) (pat : String) : Bool :=
  match spanName s with
  | some n => strContains n pat
  | none => false

/-- Chain completeness as worded by the spec/claim: each required
operation-kind substring is contained in the name of at least one span of
the group for the id, and at least one span of the group carries a
non-empty string `class_session_id` attribute. -/
def specChainComplete (spans : List JVal) (cid : String) : Bool :=
  let g := specGroup spans cid
  (g.any fun s => specNameHas s "ws.message" || specNameHas s "ws.event.class_enter") &&
  (g.any fun s => specNameHas s "pg.prisma.classEvent.create") &&
  (g.any fun s => specNameHas s "redis.aggregate.incEnter") &&
  (g.any fun s => specNameHas s "ws.push.class_session_aggregate") &&
  (g.any fun s =>
    match lookupKey (pyAttrs s) "class_session_id" with
    | some (.str v) => v != ""
    | _ => false)

/-- Claim C10's description of a malformed span entry: not an object, or
`attributes` absent or not an object, or `attributes.correlation_id` not
a non-empty string. -/
def spanShapeBad (s : JVal) : Bool :=
  match s with
  | .obj kvs =>
    match lookupKey kvs "attributes" with
    | some (.obj a) =>
      match lookupKey a "correlation_id" with
      | some (.str c) => c == ""
      | _ => true
    | _ => true
  | _ => true

/-- One inbound socket.io message as inspected by `_on_message`: arrival
time plus the fields the driver reads.  `ok` is the truthiness of the
`ok` field (absent reads as false). -/
structure InMsg where
  t : Nat
  msg_type : String
  ack_type : Option String
  ok : Bool
  joined_count : Option Int
  enter_event_count : Option Int
  correlation_id : Option String
  class_session_id : Option String
deriving Repr, DecidableEq

/-- The dataclass `WsResult` of `run_pr2_e2e_ws.py`. -/
structure WsResult where
  auth_ok : Bool
  join_ok : Bool
  event_ack_ok : Bool
  got_aggregate : Bool
  last_aggregate : Option InMsg
  timeline : List String
  service_logs : List String
deriving Repr, DecidableEq

/-- The messages delivered by time `t`. -/
def arrivedBy (msgs : List InMsg) (t : Nat) : List InMsg :=
  msgs.filter (fun m => m.t ≤ t)

/-- Denotational `_wait_for`: the wait succeeds iff the predicate holds
over everything that has arrived by `t0 + timeout` (idealised continuous
polling; the real loop polls every 10 ms and probes the predicate once
more after the deadline). -/
def waitOk (msgs : List InMsg) (p : List InMsg → Bool) (t0 timeout : Nat) : Bool :=
  p (arrivedBy msgs (t0 + timeout))

/-- The instant at which `_wait_for` returns: the earliest
predicate-satisfying instant among the wait's start and the in-window
arrival instants, or the deadline when the wait times out. -/
def waitEnd (msgs : List InMsg) (p : List InMsg → Bool) (t0 timeout : Nat) : Nat :=
  ((t0 :: (msgs.map (fun m => m.t)).filter (fun u => t0 < u && u ≤ t0 + timeout)).filter
      (fun u => p (arrivedBy msgs u))).foldl Nat.min (t0 + timeout)

/-- The predicate of the auth/join/event waits:
`any(a.get("ack_type") == kind and a.get("ok") for a in ack_seen)`. -/
def ackPred (kind : String) (ms : List InMsg) : Bool :=
  ms.any fun m => m.msg_type == "ack" && m.ack_type == some kind && m.ok

/-- The predicate of the idempotent re-join wait: at least two successful
`join_class_session` acks seen. -/
def join2Pred (ms : List InMsg) : Bool :=
  (ms.filter fun m =>
    m.msg_type == "ack" && m.ack_type == some "join_class_session" && m.ok).length ≥ 2

/-- The predicate of the aggregate wait: `len(aggs) > 0`. -/
def aggPred (ms : List InMsg) : Bool :=
  ms.any fun m => m.msg_type == "class_session_aggregate"

/-- Instant at which the auth wait returns (the join message is sent then). -/
def tAuthEnd (msgs : List InMsg) (t0 : Nat) : Nat :=
  waitEnd msgs (ackPred "auth") t0 1000

/-- Instant at which the first join wait returns. -/
def tJoinEnd (msgs : List InMsg) (t0 : Nat) : Nat :=
  waitEnd msgs (ackPred "join_class_session") (tAuthEnd msgs t0) 1000

/-- Instant at which the re-join wait returns. -/
def tJoin2End (msgs : List InMsg) (t0 : Nat) : Nat :=
  waitEnd msgs join2Pred (tJoinEnd msgs t0) 1000

/-- Instant at which the `class_enter` event is emitted. -/
def tEventSend (msgs : List InMsg) (t0 : Nat) (doIdem : Bool) : Nat :=
  if doIdem then tJoin2End msgs t0 else tJoinEnd msgs t0

/-- Instant at which the event-ack wait returns; the aggregate wait
starts here. -/
def tEventAckEnd (msgs : List InMsg) (t0 : Nat) (doIdem : Bool) : Nat :=
  waitEnd msgs (ackPred "event") (tEventSend msgs t0 doIdem) 1000

/-- Instant at which the aggregate wait returns and `_ws_flow` returns. -/
def tAggEnd (msgs : List InMsg) (t0 : Nat) (doIdem : Bool) : Nat :=
  waitEnd msgs aggPred (tEventAckEnd msgs t0 doIdem) 1000

/-- Timeline rendering `f"\x7bts:.3f\x7d \x7bmsg\x7d"` (the float
timestamp is modelled as the millisecond count). -/
def timelineLine (t : Nat) (msg : String) : String :=
  toString t ++ " " ++ msg

/-- Abstraction of `json.dumps(data)` in the `ws recv` timeline entries:
the rendered message (no claim depends on the rendering). -/
def renderMsg (m : InMsg) : String :=
  "ws recv msg_type=" ++ m.msg_type

/-- The service-log lines `_on_message` appends for one message:
`correlation_id ...` then `class_session_id ...` when those fields are
present and truthy. -/
def msgLogLines (m : InMsg) : List String :=
  (match m.correlation_id with
   | some c => if c != "" then ["correlation_id " ++ c] else []
   | none => []) ++
  (match m.class_session_id with
   | some c => if c != "" then ["class_session_id " ++ c] else []
   | none => [])

/-- The driver's timeline at return instant `cutoff`: the connect entry
plus one entry per delivered message. -/
def mkTimeline (msgs : List InMsg) (t0 cutoff : Nat) (cid : String) : List String :=
  timelineLine t0 ("ws connect correlation_id=" ++ cid) ::
    (arrivedBy msgs cutoff).map (fun m => timelineLine m.t (renderMsg m))

/-- The driver's service-log evidence at return instant `cutoff`. -/
def mkLogs (msgs : List InMsg) (cutoff : Nat) (cid : String) : List String :=
  ("x-correlation-id " ++ cid) :: ((arrivedBy msgs cutoff).map msgLogLines).flatten

/-- Embedding of `_ws_flow`: the protocol sequence
auth → join → (optional re-join) → event, with each wait bounded by one
second.  `msgs` is the inbound message schedule of this connection,
`t0` the connect instant, `cid` the correlation id generated for the
session. -/
def wsFlow (msgs : List InMsg) (t0 : Nat) (doIdem : Bool) (cid : String) : WsResult :=
  if !(waitOk msgs (ackPred "auth") t0 1000) then
    { auth_ok := false, join_ok := false, event_ack_ok := false, got_aggregate := false,
      last_aggregate := none,
      timeline := mkTimeline msgs t0 (tAuthEnd msgs t0) cid,
      service_logs := mkLogs msgs (tAuthEnd msgs t0) cid }
  else if !(waitOk msgs (ackPred "join_class_session") (tAuthEnd msgs t0) 1000) then
    { auth_ok := true, join_ok := false, event_ack_ok := false, got_aggregate := false,
      last_aggregate := none,
      timeline := mkTimeline msgs t0 (tJoinEnd msgs t0) cid,
      service_logs := mkLogs msgs (tJoinEnd msgs t0) cid }
  else if doIdem && !(waitOk msgs join2Pred (tJoinEnd msgs t0) 1000) then
    { auth_ok := true, join_ok := false, event_ack_ok := false, got_aggregate := false,
      last_aggregate := none,
      timeline := mkTimeline msgs t0 (tJoin2End msgs t0) cid,
      service_logs := mkLogs msgs (tJoin2End msgs t0) cid }
  else
    { auth_ok := true, join_ok := true,
      event_ack_ok := waitOk msgs (ackPred "event") (tEventSend msgs t0 doIdem) 1000,
      got_aggregate := waitOk msgs aggPred (tEventAckEnd msgs t0 doIdem) 1000,
      last_aggregate :=
        ((arrivedBy msgs (tAggEnd msgs t0 doIdem)).filter
          (fun m => m.msg_type == "class_session_aggregate")).getLast?,
      timeline := mkTimeline msgs t0 (tAggEnd msgs t0 doIdem) cid,
      service_logs := mkLogs msgs (tAggEnd msgs t0 doIdem) cid }

/-- The guard of `wsFlow`'s fourth (event-emitting) branch: all the
prerequisite waits succeeded. -/
def preOk (msgs : List InMsg) (t0 : Nat) (doIdem : Bool) : Bool :=
  waitOk msgs (ackPred "auth") t0 1000 &&
  waitOk msgs (ackPred "join_class_session") (tAuthEnd msgs t0) 1000 &&
  (!doIdem || waitOk msgs join2Pred (tJoinEnd msgs t0) 1000)

/-- The flag-and-aggregate payload of a `WsResult` (what `main`'s
assertions consume; the timeline and log fields are evidence blobs). -/
def flagsOf (r : WsResult) : Bool × Bool × Bool × Bool × Option InMsg :=
  (r.auth_ok, r.join_ok, r.event_ack_ok, r.got_aggregate, r.last_aggregate)

/-- `_assert`: one report line. -/
def assertLine (cond : Bool) (msg : String) : String :=
  (if cond then "PASS" else "FAIL") ++ " " ++ msg

/-- The pass/fail report `main` builds (lines 242-274): three header
lines, the per-client 1-second assertions, the aggregate-presence
assertions, the count assertions guarded by `if agg1:` / `if agg2:`, and
the post-disconnect count assertion. -/
def buildReport (csid cid1 cid2 : String) (res1 res2 : WsResult) (aggAfterDisc : InMsg) :
    List String :=
  ["class_session_id=" ++ csid,
   "c1_correlation_id=" ++ cid1,
   "c2_correlation_id=" ++ cid2,
   assertLine res1.event_ack_ok "send class_enter -> ack(event) within 1s (client1)",
   assertLine res1.got_aggregate "send class_enter -> class_session_aggregate within 1s (client1)",
   assertLine res2.event_ack_ok "send class_enter -> ack(event) within 1s (client2)",
   assertLine res2.got_aggregate "send class_enter -> class_session_aggregate within 1s (client2)",
   assertLine res1.last_aggregate.isSome "client1 received aggregate",
   assertLine res2.last_aggregate.isSome "client2 received aggregate"] ++
  (match res1.last_aggregate with
   | some a =>
     [assertLine (a.joined_count == some 1) "single connection: joined_count == 1 (after client1 join)",
      assertLine (a.enter_event_count == some 1) "single connection: enter_event_count == 1 (after client1 enter)"]
   | none => []) ++
  (match res2.last_aggregate with
   | some a =>
     [assertLine (a.joined_count == some 2) "two connections: joined_count == 2 (after both join)",
      assertLine (a.enter_event_count == some 2) "two connections: enter_event_count == 2 (after both enter)"]
   | none => []) ++
  [assertLine (aggAfterDisc.joined_count == some 2)
    "after disconnect + new join: joined_count reflects decrement then increment (expected 2)"]

/-- `main`'s exit value (line 315): 2 when any report line starts with
FAIL, else 0. -/
def mainExit (report : List String) : Nat :=
  if report.any (fun l => strStartsWith l "FAIL") then 2 else 0

/-- The fallback `trace-export.json` marker `main` writes when the API
produced no export (`json.dumps(..., indent=2) + "\n"`). -/
def markerText : String :=
  "\x7b\n  \"status\": \"MISSING_FROM_API\",\n  \"note\": \"API did not produce PR2_TRACE_EXPORT_PATH export\"\n\x7d\n"

/-- The environment one run of `main` observes: the REST response
creating the class session (`none` models an HTTP error raised by
`raise_for_status`), the inbound schedule, connect instant and generated
correlation id of each of the three client connections, and whether the
API already produced `trace-export.json`. -/
structure Env where
  rest : Option String
  msgs1 : List InMsg
  t1 : Nat
  cid1 : String
  msgs2 : List InMsg
  t2 : Nat
  cid2 : String
  msgs3 : List InMsg
  t3 : Nat
  cid3 : String
  traceExportExists : Bool

/-- Client 1's driver result (idempotent re-join mode). -/
def res1of (env : Env) : WsResult := wsFlow env.msgs1 env.t1 true env.cid1

/-- Client 2's driver result. -/
def res2of (env : Env) : WsResult := wsFlow env.msgs2 env.t2 false env.cid2

/-- The fresh third client's driver result inside `_get_aggregate`. -/
def res3of (env : Env) : WsResult := wsFlow env.msgs3 env.t3 false env.cid3

/-- Embedding of `main` (and `_get_aggregate`): returns the files written
(path, content) in write order, and either the exit value or the text of
an uncaught Python exception.  A `raise_for_status` failure or the
`RuntimeError("no aggregate received")` of `_get_aggregate` propagates
out of `main` before any artifact write (all writes happen after line
273), so the write list is empty on those paths.  `tNow` is the clock
value at the final timeline entry. -/
def mainRun (env : Env) (tNow : Nat) : List (String × String) × Except String Nat :=
  match env.rest with
  | none => ([], Except.error "requests.HTTPError")
  | some csid =>
    match (res3of env).last_aggregate with
    | none => ([], Except.error "RuntimeError: no aggregate received")
    | some agg3 =>
      let res1 := res1of env
      let res2 := res2of env
      let report := buildReport csid env.cid1 env.cid2 res1 res2 agg3
      let logsAll :=
        ["x-correlation-id", "correlation_id", "class_session_id"] ++
        res1.service_logs ++ res2.service_logs ++
        ["correlation_id " ++ env.cid1,
         "correlation_id " ++ env.cid2,
         "class_session_id " ++ csid,
         "x-correlation-id " ++ env.cid1]
      let writes :=
        [("artifacts/tests/e2e-ws-report.txt", joinLines report),
         ("artifacts/observability/service-logs.txt", joinLines (dedupKeys logsAll)),
         ("artifacts/observability/correlation-ids.txt", env.cid1 ++ "\n" ++ env.cid2 ++ "\n"),
         ("artifacts/observability/e2e-timeline.txt",
          joinLines (res1.timeline ++ res2.timeline ++ [timelineLine tNow "ws disconnects issued"]))]
      let writes :=
        if env.traceExportExists then writes
        else writes ++ [("artifacts/observability/trace-export.json", markerText)]
      (writes, Except.ok (mainExit report))

/-- The content written to the pass/fail report, when written. -/
def reportOf (out : List (String × String) × Except String Nat) : Option String :=
  (out.1.find? (fun w => w.1 == "artifacts/tests/e2e-ws-report.txt")).map (fun w => w.2)

/-- The content written to the timeline artifact, when written. -/
def timelineOf (out : List (String × String) × Except String Nat) : Option String :=
  (out.1.find? (fun w => w.1 == "artifacts/observability/e2e-timeline.txt")).map (fun w => w.2)

/-! Concrete data used to evaluate the embedding on specific inputs. -/

/-- A span with the given name and correlation id. -/
def mkSpan (n c : String) : JVal :=
  JVal.obj [("name", JVal.str n), ("attributes", JVal.obj [("correlation_id", JVal.str c)])]

/-- A span additionally carrying a `class_session_id` attribute. -/
def mkSpanCS (n c cs : String) : JVal :=
  JVal.obj [("name", JVal.str n),
    ("attributes", JVal.obj [("correlation_id", JVal.str c), ("class_session_id", JVal.str cs)])]

/-- A complete chain of spans, all under correlation id `c11`. -/
def spansC1 : List JVal :=
  [mkSpanCS "ws.message" "c11" "cs-1",
   mkSpan "pg.prisma.classEvent.create" "c11",
   mkSpan "redis.aggregate.incEnter" "c11",
   mkSpan "ws.push.class_session_aggregate" "c11"]

/-- Eleven candidate ids; only the eleventh has any spans. -/
def idsC1 : List String :=
  ["c01", "c02", "c03", "c04", "c05", "c06", "c07", "c08", "c09", "c10", "c11"]

/-- The parsed trace export holding `spansC1`. -/
def exportC1 : JVal := JVal.obj [("spans", JVal.arr spansC1)]

/-- The parsed `MISSING_FROM_API` marker object. -/
def markerJ : JVal :=
  JVal.obj [("status", JVal.str "MISSING_FROM_API"),
    ("note", JVal.str "API did not produce PR2_TRACE_EXPORT_PATH export")]

/-- A complete chain under id `cw` plus one malformed entry. -/
def spansC2 : List JVal :=
  [mkSpanCS "app.ws.event.class_enter" "cw" "cs-9",
   mkSpan "pg.prisma.classEvent.create" "cw",
   mkSpan "redis.aggregate.incEnter" "cw",
   mkSpan "ws.push.class_session_aggregate" "cw",
   JVal.num 7]

/-- A span batch holding one malformed entry and one good span under `cx`. -/
def spansC10 : List JVal :=
  [JVal.num 3, mkSpanCS "ws.message" "cx" "cs-2"]

/-- A successful ack message arriving at `t`. -/
def ackMsg (t : Nat) (kind : String) : InMsg :=
  { t := t, msg_type := "ack", ack_type := some kind, ok := true,
    joined_count := none, enter_event_count := none,
    correlation_id := none, class_session_id := none }

/-- An aggregate push arriving at `t` with the given counters. -/
def aggMsg (t : Nat) (j e : Int) : InMsg :=
  { t := t, msg_type := "class_session_aggregate", ack_type := none, ok := false,
    joined_count := some j, enter_event_count := some e,
    correlation_id := none, class_session_id := none }

/-- Schedule refuting C3: auth ack at 100, join ack at 200 (so the event
goes out at 200), no event ack, and the only aggregate at 1700 — more
than one second after the event send, yet inside the aggregate wait that
starts when the event-ack wait times out at 1200. -/
def msgsC3 : List InMsg :=
  [ackMsg 100 "auth", ackMsg 200 "join_class_session", aggMsg 1700 1 1]

/-- Schedule where the event ack arrives but no aggregate ever does. -/
def msgsC3A : List InMsg :=
  [ackMsg 100 "auth", ackMsg 200 "join_class_session", ackMsg 300 "event"]

/-- Schedule where an aggregate arrives but no event ack ever does. -/
def msgsC3B : List InMsg :=
  [ackMsg 100 "auth", ackMsg 200 "join_class_session", aggMsg 300 1 1]

/-- Schedule where auth and the first join succeed but the re-join ack
never arrives. -/
def msgsC9a : List InMsg :=
  [ackMsg 10 "auth", ackMsg 20 "join_class_session"]

/-- Schedule where auth succeeds but no join ack ever arrives. -/
def msgsC9b : List InMsg :=
  [ackMsg 10 "auth"]

/-- Client-1 schedule for the C4 scenario: both join acks and the event
ack arrive, but no aggregate push ever does. -/
def msgsC4a : List InMsg :=
  [ackMsg 10 "auth", ackMsg 20 "join_class_session", ackMsg 30 "join_class_session",
   ackMsg 40 "event"]

/-- Client-2 schedule for the C4 scenario: a fully successful run. -/
def msgsC4b : List InMsg :=
  [ackMsg 10 "auth", ackMsg 20 "join_class_session", ackMsg 30 "event", aggMsg 40 2 2]

/-- The post-disconnect aggregate snapshot used in the C4 scenario. -/
def aggC4 : InMsg := aggMsg 50 2 2

/-- Fully successful idempotent-join schedule. -/
def msgsOk1 : List InMsg :=
  [ackMsg 10 "auth", ackMsg 20 "join_class_session", ackMsg 30 "join_class_session",
   ackMsg 40 "event", aggMsg 50 1 1]

/-- Fully successful single-join schedule. -/
def msgsOk2 : List InMsg :=
  [ackMsg 10 "auth", ackMsg 20 "join_class_session", ackMsg 30 "event", aggMsg 40 2 2]

/-- Environment for the C5 scenario: both main clients run fine, but the
fresh third client (inside `_get_aggregate`) never receives an aggregate
push, so `RuntimeError("no aggregate received")` propagates. -/
def envC5 : Env :=
  { rest := some "cs-1",
    msgs1 := msgsOk1, t1 := 0, cid1 := "c1",
    msgs2 := msgsOk2, t2 := 0, cid2 := "c2",
    msgs3 := [ackMsg 10 "auth", ackMsg 20 "join_class_session"], t3 := 0, cid3 := "c3",
    traceExportExists := false }

/-- Environment on the success path (the third client does receive an
aggregate), used to evaluate the emission twice with different clocks. -/
def envC8 : Env :=
  { rest := some "s",
    msgs1 := [], t1 := 0, cid1 := "a",
    msgs2 := [], t2 := 0, cid2 := "b",
    msgs3 := [ackMsg 10 "auth", ackMsg 20 "join_class_session", aggMsg 30 2 2],
    t3 := 0, cid3 := "c",
    traceExportExists := true }

/-- A driver result whose aggregate is missing (client 1 shape). -/
def resC4r1 : WsResult :=
  { auth_ok := true, join_ok := true, event_ack_ok := true, got_aggregate := false,
    last_aggregate := none, timeline := [], service_logs := [] }

/-- A driver result whose aggregate is missing (client 2 shape). -/
def resC4r2 : WsResult :=
  { auth_ok := true, join_ok := true, event_ack_ok := false, got_aggregate := false,
    last_aggregate := none, timeline := [], service_logs := [] }

/-! Helper lemmas. -/

/-- Folding `Nat.min` never exceeds the initial accumulator. -/
theorem foldl_min_le (l : List Nat) (a : Nat) : l.foldl Nat.min a ≤ a := by
  induction l generalizing a with
  | nil => exact Nat.le_refl a
  | cons x xs ih => exact Nat.le_trans (ih (Nat.min a x)) (Nat.min_le_left a x)

/-- A bounded wait returns no later than its deadline. -/
theorem waitEnd_le (msgs : List InMsg) (p : List InMsg → Bool) (t0 timeout : Nat) :
    waitEnd msgs p t0 timeout ≤ t0 + timeout :=
  foldl_min_le _ _

/-- A string starting with the fixed text `p` never equals a string `q`
whose first `p.data.length` characters differ from `p`. -/
theorem append_ne_fixed (p e q : String) (h : q.data.take p.data.length ≠ p.data) :
    p ++ e ≠ q := by
  intro heq
  exact h (by rw [← heq, String.data_append, List.take_left])

/-- Lookup skips a head entry with a different key. -/
theorem lookupList_cons_ne (a : String) (vs : List JVal) (tl : List (String × List JVal))
    (k' : String) (h : ¬ a = k') :
    lookupList ((a, vs) :: tl) k' = lookupList tl k' := by
  simp [lookupList, List.find?, beq_eq_false_iff_ne.mpr h]

/-- Lookup finds a head entry with the matching key. -/
theorem lookupList_cons_eq (a : String) (vs : List JVal) (tl : List (String × List JVal)) :
    lookupList ((a, vs) :: tl) a = some vs := by
  simp [lookupList, List.find?]

/-- Lookup after one grouping-insert step. -/
theorem lookupList_insertGroup (m : List (String × List JVal)) (k : String) (v : JVal)
    (k' : String) :
    lookupList (insertGroup m k v) k' =
      if k' = k then some ((lookupList m k).getD [] ++ [v]) else lookupList m k' := by
  induction m with
  | nil =>
    by_cases h : k' = k
    · subst h
      simp [insertGroup, lookupList, List.find?]
    · simp [insertGroup, lookupList, List.find?, beq_eq_false_iff_ne.mpr (Ne.symm h), h]
  | cons hd tl ih =>
    obtain ⟨a, vs⟩ := hd
    by_cases hak : a = k
    · subst hak
      rw [show insertGroup ((a, vs) :: tl) a v = (a, vs ++ [v]) :: tl by
        simp [insertGroup]]
      by_cases hk' : k' = a
      · subst hk'
        rw [lookupList_cons_eq, lookupList_cons_eq, if_pos rfl]
        simp
      · rw [lookupList_cons_ne a _ _ _ (fun hh => hk' hh.symm),
          lookupList_cons_ne a _ _ _ (fun hh => hk' hh.symm), if_neg hk']
    · rw [show insertGroup ((a, vs) :: tl) k v = (a, vs) :: insertGroup tl k v by
        simp [insertGroup, beq_eq_false_iff_ne.mpr hak]]
      by_cases hk' : k' = a
      · subst hk'
        rw [lookupList_cons_eq, if_neg hak, lookupList_cons_eq]
      · rw [lookupList_cons_ne a _ _ k' (fun hh => hk' hh.symm), ih,
          lookupList_cons_ne a _ _ k hak,
          lookupList_cons_ne a _ _ k' (fun hh => hk' hh.symm)]

/-- Generalised correctness of the `span_by_corr` fold. -/
theorem spanByCorr_fold (spans : List JVal) (m : List (String × List JVal)) (cid : String) :
    (lookupList
        (spans.foldl
          (fun m s =>
            match goodCorr s with
            | some c => insertGroup m c s
            | none => m)
          m)
        cid).getD [] =
      (lookupList m cid).getD [] ++ spans.filter (fun s => goodCorr s == some cid) := by
  induction spans generalizing m with
  | nil => simp
  | cons s rest ih =>
    simp only [List.foldl_cons]
    rcases h : goodCorr s with _ | c
    · rw [ih]
      have hp : (goodCorr s == some cid) = false := by
        rw [h]; rfl
      simp [List.filter_cons, hp]
    · by_cases hc : cid = c
      · subst hc
        rw [ih, lookupList_insertGroup, if_pos rfl]
        have hp : (goodCorr s == some cid) = true := by
          rw [h]; simp
        simp [List.filter_cons, hp]
      · rw [ih, lookupList_insertGroup, if_neg hc]
        have hp : (goodCorr s == some cid) = false := by
          rw [h]
          simp [beq_eq_false_iff_ne.mpr (fun hh => hc hh.symm)]
        simp [List.filter_cons, hp]

/-- The group read back for a candidate id is exactly the sublist of
spans whose (well-formed, non-empty) correlation id equals it. -/
theorem groupOf_eq_filter (spans : List JVal) (cid : String) :
    groupOf spans cid = spans.filter (fun s => goodCorr s == some cid) := by
  have := spanByCorr_fold spans [] cid
  simpa [groupOf, spanByCorr, lookupList] using this

/-- A candidate whose group is empty never passes the chain test. -/
theorem chainCompleteFor_empty (spans : List JVal) (cid : String)
    (h : (groupOf spans cid).isEmpty = true) : chainCompleteFor spans cid = false := by
  rw [List.isEmpty_iff] at h
  simp [chainCompleteFor, h, namesOf, hasWsName]

/-- The candidate loop returns the first candidate (in list order) whose
group passes the chain test: the empty-group `continue` never skips a
passing candidate. -/
theorem findCompleteId_eq_find (spans : List JVal) (l : List String) :
    findCompleteId spans l = l.find? (fun cid => chainCompleteFor spans cid) := by
  induction l with
  | nil => rfl
  | cons cid rest ih =>
    rw [List.find?_cons]
    by_cases h : (groupOf spans cid).isEmpty = true
    · have hf := chainCompleteFor_empty spans cid h
      simp [findCompleteId, h, hf, ih]
    · have hb : (groupOf spans cid).isEmpty = false := by
        cases hx : (groupOf spans cid).isEmpty
        · rfl
        · exact absurd hx h
      rcases hc : chainCompleteFor spans cid
      · simp [findCompleteId, hb, hc, ih]
      · simp [findCompleteId, hb, hc]

/-- Lookup in an empty object yields nothing. -/
theorem lookupKey_nil (k : String) : lookupKey [] k = none := rfl

/-- For a non-empty candidate id, the code's grouping condition agrees
with the spec's attribute-equality condition (they differ only on the
empty string, which the code filters out). -/
theorem goodCorr_agrees (s : JVal) (cid : String) (h : cid ≠ "") :
    (goodCorr s == some cid) = (specCorr s == some cid) := by
  cases s with
  | obj kvs =>
    rcases h1 : lookupKey kvs "attributes" with _ | v
    · simp [goodCorr, specCorr, pyAttrs, lookupKey_nil, h1]
    · cases v with
      | obj a =>
        rcases h2 : lookupKey a "correlation_id" with _ | w
        · simp [goodCorr, specCorr, pyAttrs, lookupKey_nil, h1, h2]
        · cases w with
          | str c =>
            by_cases hc : c = ""
            · subst hc
              have hcid : (("" : String) == cid) = false :=
                beq_eq_false_iff_ne.mpr (fun hh => h hh.symm)
              simp [goodCorr, specCorr, pyAttrs, lookupKey_nil, h1, h2, hcid]
            · simp [goodCorr, specCorr, pyAttrs, lookupKey_nil, h1, h2, beq_eq_false_iff_ne.mpr hc]
          | null => simp [goodCorr, specCorr, pyAttrs, lookupKey_nil, h1, h2]
          | bool b => simp [goodCorr, specCorr, pyAttrs, lookupKey_nil, h1, h2]
          | num n => simp [goodCorr, specCorr, pyAttrs, lookupKey_nil, h1, h2]
          | arr xs => simp [goodCorr, specCorr, pyAttrs, lookupKey_nil, h1, h2]
          | obj kvs2 => simp [goodCorr, specCorr, pyAttrs, lookupKey_nil, h1, h2]
      | null => simp [goodCorr, specCorr, pyAttrs, lookupKey_nil, h1]
      | bool b => simp [goodCorr, specCorr, pyAttrs, lookupKey_nil, h1]
      | num n => simp [goodCorr, specCorr, pyAttrs, lookupKey_nil, h1]
      | str c => simp [goodCorr, specCorr, pyAttrs, lookupKey_nil, h1]
      | arr xs => simp [goodCorr, specCorr, pyAttrs, lookupKey_nil, h1]
  | null => rfl
  | bool b => rfl
  | num n => rfl
  | str c => rfl
  | arr xs => rfl

/-- No non-empty pattern occurs in the empty string. -/
theorem strContains_empty (pat : String) (h : pat.data ≠ []) :
    strContains "" pat = false := by
  unfold strContains lcInfix
  cases hp : pat.data with
  | nil => exact absurd hp h
  | cons a as => simp [leadsWith]

/-- The `any` over the extracted name list equals an `any` over the spans
themselves, provided the predicate rejects the empty string (mirroring
the `n and ...` truthiness guard). -/
theorem namesOf_any (g : List JVal) (p : String → Bool) (hp : p "" = false) :
    (namesOf g).any (fun n => n != "" && p n) =
      g.any (fun s => (spanName s).elim false p) := by
  induction g with
  | nil => rfl
  | cons s g ih =>
    rcases h : spanName s with _ | n
    · have h1 : namesOf (s :: g) = namesOf g := by
        simp [namesOf, List.filterMap_cons, h]
      rw [h1, List.any_cons, ih, h]
      simp [Option.elim]
    · have h1 : namesOf (s :: g) = n :: namesOf g := by
        simp [namesOf, List.filterMap_cons, h]
      rw [h1, List.any_cons, List.any_cons, ih, h]
      by_cases hn : n = ""
      · subst hn
        simp [hp, Option.elim]
      · have hb : (n != "") = true := by
          simp [bne, beq_eq_false_iff_ne.mpr hn]
        simp [hb, Option.elim]

/-- Eliminator bridge for a two-pattern name test. -/
theorem elim_or_name (s : JVal) (p1 p2 : String) :
    (spanName s).elim false (fun n => strContains n p1 || strContains n p2) =
      (specNameHas s p1 || specNameHas s p2) := by
  rcases h : spanName s with _ | n <;> simp [specNameHas, h, Option.elim]

/-- Eliminator bridge for a single-pattern name test. -/
theorem elim_single_name (s : JVal) (pat : String) :
    (spanName s).elim false (fun n => strContains n pat) = specNameHas s pat := by
  rcases h : spanName s with _ | n <;> simp [specNameHas, h, Option.elim]

/-- `has_ws` over the extracted names is the spec's per-span test. -/
theorem hasWsName_eq (g : List JVal) :
    hasWsName (namesOf g) =
      g.any (fun s => specNameHas s "ws.message" || specNameHas s "ws.event.class_enter") := by
  rw [hasWsName, namesOf_any _ _ (by decide)]
  exact congrArg g.any (funext (fun s => elim_or_name s _ _))

/-- `has_pg` over the extracted names is the spec's per-span test. -/
theorem hasPgName_eq (g : List JVal) :
    hasPgName (namesOf g) = g.any (fun s => specNameHas s "pg.prisma.classEvent.create") := by
  rw [hasPgName, namesOf_any _ _ (by decide)]
  exact congrArg g.any (funext (fun s => elim_single_name s _))

/-- `has_redis` over the extracted names is the spec's per-span test. -/
theorem hasRedisName_eq (g : List JVal) :
    hasRedisName (namesOf g) = g.any (fun s => specNameHas s "redis.aggregate.incEnter") := by
  rw [hasRedisName, namesOf_any _ _ (by decide)]
  exact congrArg g.any (funext (fun s => elim_single_name s _))

/-- `has_push` over the extracted names is the spec's per-span test. -/
theorem hasPushName_eq (g : List JVal) :
    hasPushName (namesOf g) =
      g.any (fun s => specNameHas s "ws.push.class_session_aggregate") := by
  rw [hasPushName, namesOf_any _ _ (by decide)]
  exact congrArg g.any (funext (fun s => elim_single_name s _))

/-- For a non-empty id, the code's group equals the spec's group. -/
theorem groupOf_eq_specGroup (spans : List JVal) (cid : String) (h : cid ≠ "") :
    groupOf spans cid = specGroup spans cid := by
  rw [groupOf_eq_filter, specGroup]
  exact List.filter_congr (fun s _ => goodCorr_agrees s cid h)

/-! Claim theorems. -/

/-- C1 (counterexample): the Verifier does not test every candidate id in
the list — it truncates to the first ten (`ids[:10]`).  Here the eleventh
candidate `c11` has a fully complete chain, yet the check returns the
generic no-chain failure, whose diagnostic also names no individual unmet
requirement. -/
theorem claim_C1_counterexample :
    chainCompleteFor spansC1 "c11" = true ∧
    "c11" ∈ idsC1 ∧
    checkTraceChain true true (Except.ok exportC1) true idsC1 = Except.ok noChainResult :=
  ⟨rfl, by decide, rfl⟩

/-- C1 (amended): on a manifest-bearing run with an existing, well-formed
export holding a non-empty `spans` array and a non-empty candidate list,
the Verifier returns success for the first candidate id among the FIRST
TEN (in list order) whose span group satisfies chain completeness, and
otherwise fails with the fixed generic diagnostic `noChainResult` (which
names no individual unmet requirement). -/
theorem claim_C1_first_of_ten (spans : List JVal) (idLines : List String)
    (h1 : spans ≠ []) (h2 : candidateIds true idLines ≠ []) :
    checkTraceChain true true (Except.ok (JVal.obj [("spans", JVal.arr spans)])) true idLines =
      Except.ok
        (match ((candidateIds true idLines).take 10).find?
            (fun cid => chainCompleteFor spans cid) with
         | some cid => passResult cid
         | none => noChainResult) := by
  have hlk : lookupKey [("spans", JVal.arr spans)] "spans" = some (JVal.arr spans) := rfl
  have hemp : spans.isEmpty = false := by
    cases spans with
    | nil => exact absurd rfl h1
    | cons a l => rfl
  have hids : (candidateIds true idLines).isEmpty = false := by
    cases hx : candidateIds true idLines with
    | nil => exact absurd hx h2
    | cons a l => rfl
  simp only [checkTraceChain, hlk, hemp, hids, findCompleteId_eq_find, Bool.not_true,
    Bool.false_eq_true, if_false]
  cases hf : List.find? (fun cid => chainCompleteFor spans cid)
      (List.take 10 (candidateIds true idLines)) <;> simp [hf]

/-- Witness for `claim_C1_first_of_ten` at a concrete input. -/
theorem claim_C1_first_of_ten_witness :
    ([mkSpanCS "x" "w" "y"] ≠ ([] : List JVal)) ∧
    candidateIds true ["w"] ≠ [] ∧
    checkTraceChain true true
        (Except.ok (JVal.obj [("spans", JVal.arr [mkSpanCS "x" "w" "y"])])) true ["w"] =
      Except.ok
        (match ((candidateIds true ["w"]).take 10).find?
            (fun cid => chainCompleteFor [mkSpanCS "x" "w" "y"] cid) with
         | some cid => passResult cid
         | none => noChainResult) :=
  ⟨List.cons_ne_nil _ _, by decide,
    claim_C1_first_of_ten [mkSpanCS "x" "w" "y"] ["w"] (List.cons_ne_nil _ _) (by decide)⟩

/-- C2: for every span batch and every non-empty correlation id (the
candidate ids the Verifier tests are non-empty by construction), the
code's chain test agrees with the spec's wording: every required
operation-kind substring is contained in the name of at least one span
whose `attributes.correlation_id` equals the id, and at least one span
of that group carries a non-empty string `class_session_id` attribute. -/
theorem claim_C2_chain_completeness (spans : List JVal) (cid : String) (h : cid ≠ "") :
    chainCompleteFor spans cid = specChainComplete spans cid := by
  have hg := groupOf_eq_specGroup spans cid h
  simp only [chainCompleteFor, specChainComplete]
  rw [hg, hasWsName_eq, hasPgName_eq, hasRedisName_eq, hasPushName_eq]
  rfl

/-- Witness for `claim_C2_chain_completeness` at a concrete input. -/
theorem claim_C2_witness :
    ("cw" ≠ "") ∧ chainCompleteFor spansC2 "cw" = specChainComplete spansC2 "cw" :=
  ⟨by decide, claim_C2_chain_completeness spansC2 "cw" (by decide)⟩

/-- A span matching claim C10's malformed-shape description has no
grouping key. -/
theorem goodCorr_none_of_bad (s : JVal) (h : spanShapeBad s = true) :
    goodCorr s = none := by
  cases s with
  | obj kvs =>
    rcases h1 : lookupKey kvs "attributes" with _ | v
    · simp [goodCorr, pyAttrs, h1, lookupKey_nil]
    · cases v with
      | obj a =>
        rcases h2 : lookupKey a "correlation_id" with _ | w
        · simp [goodCorr, pyAttrs, h1, h2]
        · cases w with
          | str c =>
            have hc : (c == "") = true := by
              simpa [spanShapeBad, h1, h2] using h
            simp [goodCorr, pyAttrs, h1, h2, hc]
          | null => simp [goodCorr, pyAttrs, h1, h2]
          | bool b => simp [goodCorr, pyAttrs, h1, h2]
          | num n => simp [goodCorr, pyAttrs, h1, h2]
          | arr xs => simp [goodCorr, pyAttrs, h1, h2]
          | obj kvs2 => simp [goodCorr, pyAttrs, h1, h2]
      | null => simp [goodCorr, pyAttrs, h1, lookupKey_nil]
      | bool b => simp [goodCorr, pyAttrs, h1, lookupKey_nil]
      | num n => simp [goodCorr, pyAttrs, h1, lookupKey_nil]
      | str c => simp [goodCorr, pyAttrs, h1, lookupKey_nil]
      | arr xs => simp [goodCorr, pyAttrs, h1, lookupKey_nil]
  | null => rfl
  | bool b => rfl
  | num n => rfl
  | str c => rfl
  | arr xs => rfl

/-- Dropping the malformed spans changes no group. -/
theorem groupOf_filter_good (spans : List JVal) (cid : String) :
    groupOf spans cid = groupOf (spans.filter (fun x => (goodCorr x).isSome)) cid := by
  rw [groupOf_eq_filter, groupOf_eq_filter, List.filter_filter]
  refine (List.filter_congr ?_).symm
  intro x _
  rcases h : goodCorr x with _ | c
  · simp [h]
  · simp [h]

/-- C6: the three Verifier failure kinds carry pairwise distinguishable
diagnostic texts, and the `MISSING_FROM_API` marker object — being valid
JSON without a `spans` array — is classified as the no-export
("missing non-empty spans") failure, never as malformed JSON. -/
theorem claim_C6_distinct_diagnostics :
    (checkTraceChain true true (Except.ok markerJ) true ["c01"] = Except.ok noSpansResult) ∧
    (∀ e : String,
      ((malformedResult e).evidence == noSpansResult.evidence) = false ∧
      ((malformedResult e).evidence == missingExportResult.evidence) = false ∧
      ((malformedResult e).evidence == noChainResult.evidence) = false) ∧
    ((noSpansResult.evidence == noChainResult.evidence) = false) ∧
    ((missingExportResult.evidence == noChainResult.evidence) = false) := by
  refine ⟨rfl, ?_, by decide, by decide⟩
  intro e
  refine ⟨?_, ?_, ?_⟩ <;>
    exact beq_eq_false_iff_ne.mpr (append_ne_fixed _ e _ (by decide))

/-- C10: the chain check is total over arbitrary span shapes.  A span
entry that is not an object, or whose `attributes` is absent or not an
object, or whose `attributes.correlation_id` is not a non-empty string,
is excluded from the per-correlation-id grouping (the group is the
filter of well-keyed spans, unchanged when malformed entries are
dropped), it never affects any candidate's chain test, and the check
runs to a result — no exception — on any `spans` array. -/
theorem claim_C10_malformed_excluded (spans : List JVal) (lines : List String)
    (cid : String) (s : JVal) (h : spanShapeBad s = true) :
    goodCorr s = none ∧
    groupOf spans cid = spans.filter (fun x => goodCorr x == some cid) ∧
    groupOf spans cid = groupOf (spans.filter (fun x => (goodCorr x).isSome)) cid ∧
    chainCompleteFor spans cid =
      chainCompleteFor (spans.filter (fun x => (goodCorr x).isSome)) cid ∧
    (checkTraceChain true true (Except.ok (JVal.obj [("spans", JVal.arr spans)]))
        true lines).isOk = true := by
  have hgrp := groupOf_filter_good spans cid
  refine ⟨goodCorr_none_of_bad s h, groupOf_eq_filter spans cid, hgrp, ?_, ?_⟩
  · simp only [chainCompleteFor]
    rw [hgrp]
  · have hlk : lookupKey [("spans", JVal.arr spans)] "spans" = some (JVal.arr spans) := rfl
    cases hemp : spans.isEmpty with
    | true => simp [checkTraceChain, hlk, hemp, Except.isOk, Except.toBool]
    | false =>
      cases hids : (candidateIds true lines).isEmpty with
      | true => simp [checkTraceChain, hlk, hemp, hids, Except.isOk, Except.toBool]
      | false =>
        cases hf : findCompleteId spans ((candidateIds true lines).take 10) with
        | none => simp [checkTraceChain, hlk, hemp, hids, hf, Except.isOk, Except.toBool]
        | some cid2 => simp [checkTraceChain, hlk, hemp, hids, hf, Except.isOk, Except.toBool]

/-- Witness for `claim_C10_malformed_excluded` at a concrete input. -/
theorem claim_C10_witness :
    spanShapeBad (JVal.num 3) = true ∧
    (goodCorr (JVal.num 3) = none ∧
     groupOf spansC10 "cx" = spansC10.filter (fun x => goodCorr x == some "cx") ∧
     groupOf spansC10 "cx" = groupOf (spansC10.filter (fun x => (goodCorr x).isSome)) "cx" ∧
     chainCompleteFor spansC10 "cx" =
       chainCompleteFor (spansC10.filter (fun x => (goodCorr x).isSome)) "cx" ∧
     (checkTraceChain true true (Except.ok (JVal.obj [("spans", JVal.arr spansC10)]))
         true ["cx"]).isOk = true) :=
  ⟨rfl, claim_C10_malformed_excluded spansC10 ["cx"] "cx" (JVal.num 3) rfl⟩

/-- Flag characterisation of `_ws_flow`: each result flag equals the
outcome of its bounded wait, with prerequisite failures forcing later
flags to false. -/
theorem wsFlow_flags (msgs : List InMsg) (t0 : Nat) (d : Bool) (cid : String) :
    (wsFlow msgs t0 d cid).auth_ok = waitOk msgs (ackPred "auth") t0 1000 ∧
    (wsFlow msgs t0 d cid).join_ok = preOk msgs t0 d ∧
    (wsFlow msgs t0 d cid).event_ack_ok =
      (preOk msgs t0 d && waitOk msgs (ackPred "event") (tEventSend msgs t0 d) 1000) ∧
    (wsFlow msgs t0 d cid).got_aggregate =
      (preOk msgs t0 d && waitOk msgs aggPred (tEventAckEnd msgs t0 d) 1000) := by
  cases hA : waitOk msgs (ackPred "auth") t0 1000 with
  | false => simp [wsFlow, preOk, hA]
  | true =>
    cases hJ : waitOk msgs (ackPred "join_class_session") (tAuthEnd msgs t0) 1000 with
    | false => simp [wsFlow, preOk, hA, hJ]
    | true =>
      cases d with
      | false => simp [wsFlow, preOk, hA, hJ]
      | true =>
        cases hJ2 : waitOk msgs join2Pred (tJoinEnd msgs t0) 1000 with
        | false => simp [wsFlow, preOk, hA, hJ, hJ2]
        | true => simp [wsFlow, preOk, hA, hJ, hJ2]

/-- C3 (counterexample): the aggregate deadline is NOT measured from the
event send time.  In `msgsC3` the event goes out at 200 ms and the only
aggregate push arrives at 1700 ms — outside any 1-second window from the
send — yet `got_aggregate` is true, because the aggregate wait only
starts when the event-ack wait times out at 1200 ms. -/
theorem claim_C3_counterexample :
    (wsFlow msgsC3 0 false "c3").got_aggregate = true ∧
    tEventSend msgsC3 0 false = 200 ∧
    msgsC3.any (fun m => m.msg_type == "class_session_aggregate" &&
      decide (m.t ≤ tEventSend msgsC3 0 false + 1000)) = false := by
  refine ⟨by decide, by decide, by decide⟩

/-- C3 (amended): after the prerequisites succeed, the driver emits the
event at `tEventSend` and then runs two sequential 1-second waits: the
event-ack flag records an ack arriving within one second of the send,
while the aggregate flag records an aggregate arriving within one second
of the event-ack wait's completion (`tEventAckEnd`), which is up to two
seconds after the send.  The two flags are tracked independently: either
may be false while the other is true, as the two concrete schedules
show. -/
theorem claim_C3_settlement (msgs : List InMsg) (t0 : Nat) (d : Bool) (cid : String) :
    ((wsFlow msgs t0 d cid).event_ack_ok =
      (preOk msgs t0 d && waitOk msgs (ackPred "event") (tEventSend msgs t0 d) 1000)) ∧
    ((wsFlow msgs t0 d cid).got_aggregate =
      (preOk msgs t0 d && waitOk msgs aggPred (tEventAckEnd msgs t0 d) 1000)) ∧
    ((wsFlow msgsC3A 0 false "a").event_ack_ok = true ∧
     (wsFlow msgsC3A 0 false "a").got_aggregate = false) ∧
    ((wsFlow msgsC3B 0 false "b").event_ack_ok = false ∧
     (wsFlow msgsC3B 0 false "b").got_aggregate = true) := by
  obtain ⟨_, _, h3, h4⟩ := wsFlow_flags msgs t0 d cid
  exact ⟨h3, h4, ⟨by decide, by decide⟩, ⟨by decide, by decide⟩⟩

/-- C7: every per-step flag of the driver is exactly the outcome of its
own bounded wait — a step whose required ack or push is not delivered
within the one-second window from that wait's start is recorded as
failed — and every wait returns no later than its deadline (the run
cannot hang in any wait). -/
theorem claim_C7_deadlines (msgs : List InMsg) (t0 : Nat) (d : Bool) (cid : String) :
    ((wsFlow msgs t0 d cid).auth_ok = waitOk msgs (ackPred "auth") t0 1000) ∧
    ((wsFlow msgs t0 d cid).join_ok =
      (waitOk msgs (ackPred "auth") t0 1000 &&
       waitOk msgs (ackPred "join_class_session") (tAuthEnd msgs t0) 1000 &&
       (!d || waitOk msgs join2Pred (tJoinEnd msgs t0) 1000))) ∧
    ((wsFlow msgs t0 d cid).event_ack_ok =
      (preOk msgs t0 d && waitOk msgs (ackPred "event") (tEventSend msgs t0 d) 1000)) ∧
    ((wsFlow msgs t0 d cid).got_aggregate =
      (preOk msgs t0 d && waitOk msgs aggPred (tEventAckEnd msgs t0 d) 1000)) ∧
    tAuthEnd msgs t0 ≤ t0 + 1000 ∧
    tJoinEnd msgs t0 ≤ tAuthEnd msgs t0 + 1000 ∧
    tJoin2End msgs t0 ≤ tJoinEnd msgs t0 + 1000 ∧
    tEventAckEnd msgs t0 d ≤ tEventSend msgs t0 d + 1000 ∧
    tAggEnd msgs t0 d ≤ tEventAckEnd msgs t0 d + 1000 := by
  obtain ⟨h1, h2, h3, h4⟩ := wsFlow_flags msgs t0 d cid
  exact ⟨h1, h2, h3, h4, waitEnd_le _ _ _ _, waitEnd_le _ _ _ _, waitEnd_le _ _ _ _,
    waitEnd_le _ _ _ _, waitEnd_le _ _ _ _⟩

/-- C9: in idempotent re-join mode, a run whose second join ack misses
its deadline (after a successful first join) returns exactly the flag
tuple `(true, false, false, false, none)` — the same tuple a run with a
failed FIRST join returns — so the result flags cannot distinguish the
two failures. -/
theorem claim_C9_rejoin_indistinct (m1 : List InMsg) (t1 : Nat) (c1 : String)
    (m2 : List InMsg) (t2 : Nat) (c2 : String)
    (hA1 : waitOk m1 (ackPred "auth") t1 1000 = true)
    (hJ1 : waitOk m1 (ackPred "join_class_session") (tAuthEnd m1 t1) 1000 = true)
    (hJ2 : waitOk m1 join2Pred (tJoinEnd m1 t1) 1000 = false)
    (hA2 : waitOk m2 (ackPred "auth") t2 1000 = true)
    (hJ1b : waitOk m2 (ackPred "join_class_session") (tAuthEnd m2 t2) 1000 = false) :
    flagsOf (wsFlow m1 t1 true c1) = (true, false, false, false, none) ∧
    flagsOf (wsFlow m1 t1 true c1) = flagsOf (wsFlow m2 t2 true c2) := by
  have h1 : flagsOf (wsFlow m1 t1 true c1) = (true, false, false, false, none) := by
    simp [wsFlow, flagsOf, hA1, hJ1, hJ2]
  have h2 : flagsOf (wsFlow m2 t2 true c2) = (true, false, false, false, none) := by
    simp [wsFlow, flagsOf, hA2, hJ1b]
  exact ⟨h1, h1.trans h2.symm⟩

/-- Witness for `claim_C9_rejoin_indistinct` at concrete schedules. -/
theorem claim_C9_witness :
    (waitOk msgsC9a (ackPred "auth") 0 1000 = true) ∧
    (waitOk msgsC9a (ackPred "join_class_session") (tAuthEnd msgsC9a 0) 1000 = true) ∧
    (waitOk msgsC9a join2Pred (tJoinEnd msgsC9a 0) 1000 = false) ∧
    (waitOk msgsC9b (ackPred "auth") 0 1000 = true) ∧
    (waitOk msgsC9b (ackPred "join_class_session") (tAuthEnd msgsC9b 0) 1000 = false) ∧
    (flagsOf (wsFlow msgsC9a 0 true "x") = (true, false, false, false, none) ∧
     flagsOf (wsFlow msgsC9a 0 true "x") = flagsOf (wsFlow msgsC9b 0 true "y")) :=
  ⟨by decide, by decide, by decide, by decide, by decide,
    claim_C9_rejoin_indistinct msgsC9a 0 "x" msgsC9b 0 "y"
      (by decide) (by decide) (by decide) (by decide) (by decide)⟩

/-- Two `_assert` report lines with different descriptions are never the
same string, whatever their PASS/FAIL status. -/
theorem assertLine_ne_of_ne (b b' : Bool) (m1 m2 : String) (hne : m1 ≠ m2) :
    assertLine b m1 ≠ assertLine b' m2 := by
  cases b <;> cases b' <;> unfold assertLine <;> intro heq
  · have hd := congrArg String.data heq
    simp only [String.data_append] at hd
    have h2 := List.append_cancel_left hd
    apply hne
    cases m1
    cases m2
    exact congrArg String.mk h2
  · have hd := congrArg (fun s : String => s.data.head?) heq
    simp [String.data_append] at hd
  · have hd := congrArg (fun s : String => s.data.head?) heq
    simp [String.data_append] at hd
  · have hd := congrArg String.data heq
    simp only [String.data_append] at hd
    have h2 := List.append_cancel_left hd
    apply hne
    cases m1
    cases m2
    exact congrArg String.mk h2

/-- When a client's aggregate is missing, neither the PASS nor the FAIL
form of either of its dependent count assertions (`joined_count` and
`enter_event_count`) appears anywhere in the report: those assertions
are skipped, not failed. -/
theorem dep_count_absent (csid c1 c2 : String) (r1 r2 : WsResult) (agg3 : InMsg)
    (b0 : Bool) (m0 : String)
    (hcase :
      (r1.last_aggregate = none ∧
        (m0 = "single connection: joined_count == 1 (after client1 join)" ∨
         m0 = "single connection: enter_event_count == 1 (after client1 enter)")) ∨
      (r2.last_aggregate = none ∧
        (m0 = "two connections: joined_count == 2 (after both join)" ∨
         m0 = "two connections: enter_event_count == 2 (after both enter)"))) :
    assertLine b0 m0 ∉ buildReport csid c1 c2 r1 r2 agg3 := by
  intro hmem
  unfold buildReport at hmem
  rcases hcase with ⟨h1, hm⟩ | ⟨h2, hm⟩
  · rw [h1] at hmem
    rcases hm with rfl | rfl <;> cases b0 <;>
      rcases hr2 : r2.last_aggregate with _ | a <;> rw [hr2] at hmem <;>
      simp only [List.mem_append, List.mem_cons, List.not_mem_nil, or_false, false_or] at hmem <;>
      repeat' (rcases hmem with hmem | hmem)
    all_goals
      first
      | exact append_ne_fixed "class_session_id=" csid _ (by decide) hmem.symm
      | exact append_ne_fixed "c1_correlation_id=" c1 _ (by decide) hmem.symm
      | exact append_ne_fixed "c2_correlation_id=" c2 _ (by decide) hmem.symm
      | exact assertLine_ne_of_ne _ _ _ _ (by decide) hmem
  · rw [h2] at hmem
    rcases hm with rfl | rfl <;> cases b0 <;>
      rcases hr1 : r1.last_aggregate with _ | a <;> rw [hr1] at hmem <;>
      simp only [List.mem_append, List.mem_cons, List.not_mem_nil, or_false, false_or] at hmem <;>
      repeat' (rcases hmem with hmem | hmem)
    all_goals
      first
      | exact append_ne_fixed "class_session_id=" csid _ (by decide) hmem.symm
      | exact append_ne_fixed "c1_correlation_id=" c1 _ (by decide) hmem.symm
      | exact append_ne_fixed "c2_correlation_id=" c2 _ (by decide) hmem.symm
      | exact assertLine_ne_of_ne _ _ _ _ (by decide) hmem

/-- C4 (counterexample): in a run where client 1 observed no aggregate
push (the prerequisite failed), neither of its dependent cross-client
count assertions (`joined_count == 1`, `enter_event_count == 1`) is
emitted at all — neither as a FAIL line nor as a PASS line — so they are
skipped rather than failed, contradicting the claim; the run is still
marked failed (exit 2) through the prerequisite line. -/
theorem claim_C4_counterexample :
    (wsFlow msgsC4a 0 true "c1").got_aggregate = false ∧
    (wsFlow msgsC4a 0 true "c1").last_aggregate = none ∧
    ((buildReport "s" "c1" "c2" (wsFlow msgsC4a 0 true "c1") (wsFlow msgsC4b 0 false "c2")
        aggC4).contains
      "FAIL single connection: joined_count == 1 (after client1 join)") = false ∧
    ((buildReport "s" "c1" "c2" (wsFlow msgsC4a 0 true "c1") (wsFlow msgsC4b 0 false "c2")
        aggC4).contains
      "PASS single connection: joined_count == 1 (after client1 join)") = false ∧
    ((buildReport "s" "c1" "c2" (wsFlow msgsC4a 0 true "c1") (wsFlow msgsC4b 0 false "c2")
        aggC4).contains
      "FAIL single connection: enter_event_count == 1 (after client1 enter)") = false ∧
    ((buildReport "s" "c1" "c2" (wsFlow msgsC4a 0 true "c1") (wsFlow msgsC4b 0 false "c2")
        aggC4).contains
      "PASS single connection: enter_event_count == 1 (after client1 enter)") = false ∧
    mainExit (buildReport "s" "c1" "c2" (wsFlow msgsC4a 0 true "c1")
      (wsFlow msgsC4b 0 false "c2") aggC4) = 2 := by
  refine ⟨by decide, by decide, by decide, by decide, by decide, by decide, by decide⟩

/-- C4 (amended): for either client, when that client's prerequisite
aggregate was not observed, BOTH of its dependent cross-client count
assertions (`joined_count` and `enter_event_count`) are omitted from the
report entirely (skipped, not emitted as FAIL, in either PASS or FAIL
form), while the prerequisite assertion `clientN received aggregate` is
emitted as a FAIL line and the overall run is marked failed (exit 2);
in general the run is marked failed exactly when some report line starts
with FAIL. -/
theorem claim_C4_skipped_dependents (csid c1 c2 : String) (r1 r2 : WsResult) (agg3 : InMsg) :
    (r1.last_aggregate = none →
      "FAIL client1 received aggregate" ∈ buildReport csid c1 c2 r1 r2 agg3 ∧
      (∀ b : Bool,
        assertLine b "single connection: joined_count == 1 (after client1 join)" ∉
          buildReport csid c1 c2 r1 r2 agg3 ∧
        assertLine b "single connection: enter_event_count == 1 (after client1 enter)" ∉
          buildReport csid c1 c2 r1 r2 agg3) ∧
      mainExit (buildReport csid c1 c2 r1 r2 agg3) = 2) ∧
    (r2.last_aggregate = none →
      "FAIL client2 received aggregate" ∈ buildReport csid c1 c2 r1 r2 agg3 ∧
      (∀ b : Bool,
        assertLine b "two connections: joined_count == 2 (after both join)" ∉
          buildReport csid c1 c2 r1 r2 agg3 ∧
        assertLine b "two connections: enter_event_count == 2 (after both enter)" ∉
          buildReport csid c1 c2 r1 r2 agg3) ∧
      mainExit (buildReport csid c1 c2 r1 r2 agg3) = 2) ∧
    (∀ report : List String,
      mainExit report = 2 ↔ report.any (fun l => strStartsWith l "FAIL") = true) := by
  refine ⟨?_, ?_, ?_⟩
  · intro h1
    have hget : (buildReport csid c1 c2 r1 r2 agg3).get? 7 =
        some "FAIL client1 received aggregate" := by
      unfold buildReport
      rw [h1]
      rfl
    have hmem := List.get?_mem hget
    refine ⟨hmem, ?_, ?_⟩
    · intro b
      exact ⟨dep_count_absent csid c1 c2 r1 r2 agg3 b _ (Or.inl ⟨h1, Or.inl rfl⟩),
        dep_count_absent csid c1 c2 r1 r2 agg3 b _ (Or.inl ⟨h1, Or.inr rfl⟩)⟩
    · have hany : (buildReport csid c1 c2 r1 r2 agg3).any
          (fun l => strStartsWith l "FAIL") = true :=
        List.any_eq_true.mpr ⟨_, hmem, by decide⟩
      simp [mainExit, hany]
  · intro h2
    have hget : (buildReport csid c1 c2 r1 r2 agg3).get? 8 =
        some "FAIL client2 received aggregate" := by
      unfold buildReport
      rw [h2]
      rfl
    have hmem := List.get?_mem hget
    refine ⟨hmem, ?_, ?_⟩
    · intro b
      exact ⟨dep_count_absent csid c1 c2 r1 r2 agg3 b _ (Or.inr ⟨h2, Or.inl rfl⟩),
        dep_count_absent csid c1 c2 r1 r2 agg3 b _ (Or.inr ⟨h2, Or.inr rfl⟩)⟩
    · have hany : (buildReport csid c1 c2 r1 r2 agg3).any
          (fun l => strStartsWith l "FAIL") = true :=
        List.any_eq_true.mpr ⟨_, hmem, by decide⟩
      simp [mainExit, hany]
  · intro report
    unfold mainExit
    cases hany : report.any (fun l => strStartsWith l "FAIL") <;> simp [hany]

/-- Witness for `claim_C4_skipped_dependents` at a concrete input where
both clients lack their aggregate. -/
theorem claim_C4_witness :
    resC4r1.last_aggregate = none ∧
    resC4r2.last_aggregate = none ∧
    ("FAIL client1 received aggregate" ∈
        buildReport "s" "c1" "c2" resC4r1 resC4r2 (aggMsg 50 2 2) ∧
      (∀ b : Bool,
        assertLine b "single connection: joined_count == 1 (after client1 join)" ∉
          buildReport "s" "c1" "c2" resC4r1 resC4r2 (aggMsg 50 2 2) ∧
        assertLine b "single connection: enter_event_count == 1 (after client1 enter)" ∉
          buildReport "s" "c1" "c2" resC4r1 resC4r2 (aggMsg 50 2 2)) ∧
      mainExit (buildReport "s" "c1" "c2" resC4r1 resC4r2 (aggMsg 50 2 2)) = 2) ∧
    ("FAIL client2 received aggregate" ∈
        buildReport "s" "c1" "c2" resC4r1 resC4r2 (aggMsg 50 2 2) ∧
      (∀ b : Bool,
        assertLine b "two connections: joined_count == 2 (after both join)" ∉
          buildReport "s" "c1" "c2" resC4r1 resC4r2 (aggMsg 50 2 2) ∧
        assertLine b "two connections: enter_event_count == 2 (after both enter)" ∉
          buildReport "s" "c1" "c2" resC4r1 resC4r2 (aggMsg 50 2 2)) ∧
      mainExit (buildReport "s" "c1" "c2" resC4r1 resC4r2 (aggMsg 50 2 2)) = 2) ∧
    (∀ report : List String,
      mainExit report = 2 ↔ report.any (fun l => strStartsWith l "FAIL") = true) :=
  ⟨rfl, rfl,
    (claim_C4_skipped_dependents "s" "c1" "c2" resC4r1 resC4r2 (aggMsg 50 2 2)).1 rfl,
    (claim_C4_skipped_dependents "s" "c1" "c2" resC4r1 resC4r2 (aggMsg 50 2 2)).2.1 rfl,
    (claim_C4_skipped_dependents "s" "c1" "c2" resC4r1 resC4r2 (aggMsg 50 2 2)).2.2⟩

/-- C5 (code bug): a run in which both main clients succeed but the
fresh observation client inside `_get_aggregate` receives no aggregate
push terminates with the uncaught `RuntimeError("no aggregate received")`
and writes NO artifact at all — no pass/fail report, no service logs,
no correlation ids, no timeline — losing everything learned so far,
because every artifact write in `main` comes after the
`_get_aggregate` call.  The exit is an uncaught-exception termination,
not the FAIL exit value 2. -/
theorem claim_C5_no_artifacts_on_missing_aggregate :
    (res1of envC5).event_ack_ok = true ∧
    (res1of envC5).got_aggregate = true ∧
    (res2of envC5).got_aggregate = true ∧
    (res3of envC5).last_aggregate = none ∧
    mainRun envC5 0 = ([], Except.error "RuntimeError: no aggregate received") := by
  refine ⟨by decide, by decide, by decide, by decide, ?_⟩
  rfl

/-- C8: the pass/fail report content is a deterministic function of the
run's inputs and never depends on the clock — two emissions over the
same environment with different clock values produce byte-identical
report content — while the timeline artifact does vary with the clock
(showing the clock parameter is not vacuous). -/
theorem claim_C8_report_deterministic (env : Env) (t t' : Nat) :
    reportOf (mainRun env t) = reportOf (mainRun env t') ∧
    timelineOf (mainRun envC8 0) ≠ timelineOf (mainRun envC8 5) := by
  constructor
  · unfold mainRun
    cases henv : env.rest with
    | none => rfl
    | some csid =>
      cases hagg : (res3of env).last_aggregate with
      | none => rfl
      | some agg3 =>
        cases htr : env.traceExportExists <;> rfl
  · intro h
    exact absurd h (by decide)
